import Mathlib

/-!
Verification of the status-aggregation and ownership-routing core of
`eventing-kafka-broker` (file
`control-plane/pkg/apis/sources/v1/kafka_lifecycle.go` and the
`consumergroup` Filter/Enqueue helpers).

The condition-manager machinery (`apis.ConditionSet`, `Manage`, `MarkTrue`,
`MarkFalse`, `MarkUnknown`, `InitializeConditions`, `IsHappy`) lives in the
external dependency `knative.dev/pkg/apis` and is not part of the sources;
those definitions are modelled from the specification (marked
`Modelled from the spec:`).  Everything else is translated directly from the
Go sources.
-/

/-- Tri-state status of a condition: the Go `corev1.ConditionStatus` values
"True", "False", "Unknown". -/
inductive CondStatus where
  | cTrue
  | cFalse
  | cUnknown
deriving DecidableEq, Repr

/-- One named condition of a resource status (`apis.Condition`).
Severity and the last-transition timestamp are omitted: the dependent set is
given explicitly by the `ConditionSet` below, and no settled claim concerns
timestamps. -/
structure Condition where
  type    : String
  status  : CondStatus
  reason  : String
  message : String
deriving DecidableEq, Repr

/-- The URL of a resolved address, modelled by its string rendering; `none`
models a nil `*apis.URL` pointer, and the Go `URL.IsEmpty` check corresponds
to equality with the empty string. -/
abbrev URLModel := Option String

/-- The `duckv1.Addressable`: a resolved address `{URL, CACerts, Audience}`. -/
structure Addressable where
  url      : URLModel
  caCerts  : Option String
  audience : Option String
deriving DecidableEq, Repr

/-- The `KafkaSourceStatus`: the mutable per-resource status.  `conditions` is the
condition mapping (keys unique, looked up by type); the remaining fields are
the sink-resolution outputs, the consumer count and the claims string. -/
structure KafkaSourceStatus where
  conditions   : List Condition
  sinkURI      : URLModel
  sinkCACerts  : Option String
  sinkAudience : Option String
  consumers    : Int
  claims       : String
deriving DecidableEq, Repr

/-- One entry of `appsv1.DeploymentStatus.Conditions`: a `{type, status}`
pair, both strings in the Go API. -/
structure DeploymentCondition where
  type   : String
  status : String
deriving DecidableEq, Repr

/-- The `appsv1.DeploymentStatus`: the condition list and the replica count. -/
structure DeploymentStatus where
  conditions : List DeploymentCondition
  replicas   : Int
deriving DecidableEq, Repr

/-- The `appsv1.Deployment`: its name and status (the only fields read). -/
structure Deployment where
  name   : String
  status : DeploymentStatus
deriving DecidableEq, Repr

/-- The `metav1.OwnerReference`, restricted to the fields the router reads. -/
structure OwnerReference where
  kind : String
  name : String
deriving DecidableEq, Repr

/-- A `ConsumerGroup` subordinate object, restricted to the fields the router
reads: its namespace and its owner-reference list. -/
structure ConsumerGroup where
  ns : String
  ownerReferences : List OwnerReference
deriving DecidableEq, Repr

/-- The `types.NamespacedName`: a routing key. -/
structure NamespacedName where
  ns : String
  name : String
deriving DecidableEq, Repr

/-- An object arriving on the shared watch stream (`interface\x7b\x7d` in Go):
either a `*ConsumerGroup` or some unrelated object (tagged by a string so the
family of non-matching objects is inhabited by more than one value). -/
inductive WatchObj where
  | consumerGroup (cg : ConsumerGroup)
  | other (tag : String)
deriving DecidableEq, Repr

/-- Modelled from the spec: `apis.ConditionSet` from `knative.dev/pkg`
(not in src): an ordered list of dependent condition types plus the implicit
aggregate ("happy") condition type. -/
structure ConditionSet where
  happy : String
  dependents : List String
deriving DecidableEq, Repr

/-- Look up the condition of type `t` in a status (`GetCondition`): the first
entry whose type matches, `none` when absent. -/
def getCondition (s : KafkaSourceStatus) (t : String) : Option Condition :=
  s.conditions.find? (fun c => decide (c.type = t))

/-- Modelled from the spec: `SetCondition` on the condition mapping — replace
the entry of the same type in place when present, append otherwise (keys stay
unique). -/
def setConditionList (cs : List Condition) (c : Condition) : List Condition :=
  if cs.any (fun x => decide (x.type = c.type)) then
    cs.map (fun x => if x.type = c.type then c else x)
  else
    cs ++ [c]

/-- Is the dependent condition of type `t` absent or Unknown in `s`? -/
def dependentAbsentOrUnknown (s : KafkaSourceStatus) (t : String) : Bool :=
  match getCondition s t with
  | none => true
  | some c => decide (c.status = CondStatus.cUnknown)

/-- The condition contributed by dependent type `t` to the "absent or
Unknown" scan: an absent condition counts as Unknown with empty reason and
message, a present condition counts iff its status is Unknown. -/
def absentOrUnknownCond (s : KafkaSourceStatus) (t : String) :
    Option Condition :=
  match getCondition s t with
  | none => some ⟨t, CondStatus.cUnknown, "", ""⟩
  | some c => if c.status = CondStatus.cUnknown then some c else none

/-- The condition contributed by dependent type `t` to the "False" scan. -/
def falseCond (s : KafkaSourceStatus) (t : String) : Option Condition :=
  match getCondition s t with
  | none => none
  | some c => if c.status = CondStatus.cFalse then some c else none

/-- Modelled from the spec: the first dependent condition, in declaration
order, that is absent or Unknown. -/
def firstAbsentOrUnknown (cset : ConditionSet) (s : KafkaSourceStatus) :
    Option Condition :=
  cset.dependents.findSome? (absentOrUnknownCond s)

/-- Modelled from the spec: the first dependent condition, in declaration
order, whose status is False. -/
def firstFalse (cset : ConditionSet) (s : KafkaSourceStatus) :
    Option Condition :=
  cset.dependents.findSome? (falseCond s)

/-- Modelled from the spec: aggregate recomputation, invoked after every
mutating call.  If any dependent is absent or Unknown the aggregate becomes
Unknown with reason/message copied from the first such condition in
declaration order; else if any dependent is False the aggregate becomes False
with reason/message from the first False one; else the aggregate becomes True
with cleared reason/message. -/
def recomputeReady (cset : ConditionSet) (s : KafkaSourceStatus) :
    KafkaSourceStatus :=
  match firstAbsentOrUnknown cset s with
  | some c =>
      { s with conditions :=
          (setConditionList s.conditions
            ⟨cset.happy, CondStatus.cUnknown, c.reason, c.message⟩) }
  | none =>
      match firstFalse cset s with
      | some c =>
          { s with conditions :=
              (setConditionList s.conditions
                ⟨cset.happy, CondStatus.cFalse, c.reason, c.message⟩) }
      | none =>
          { s with conditions :=
              (setConditionList s.conditions
                ⟨cset.happy, CondStatus.cTrue, "", ""⟩) }

/-- Modelled from the spec: the primitive mark operation of the condition
manager (`MarkTrue` / `MarkTrueWithReason` / `MarkFalse` / `MarkUnknown`,
depending on the status and reason passed): set the condition, then
synchronously recompute the aggregate. -/
def markCondition (cset : ConditionSet) (s : KafkaSourceStatus) (t : String)
    (st : CondStatus) (reason message : String) : KafkaSourceStatus :=
  recomputeReady cset
    { s with conditions := setConditionList s.conditions ⟨t, st, reason, message⟩ }

/-- Modelled from the spec: `IsHappy` — true iff the aggregate condition is
present with status True. -/
def isHappy (cset : ConditionSet) (s : KafkaSourceStatus) : Bool :=
  match getCondition s cset.happy with
  | none => false
  | some c => decide (c.status = CondStatus.cTrue)

/-- Modelled from the spec: one step of `InitializeConditions` — set the
condition of type `t` to Unknown when it is not yet present, and leave the
status untouched otherwise. -/
def initCondition (s : KafkaSourceStatus) (t : String) : KafkaSourceStatus :=
  match getCondition s t with
  | some _ => s
  | none =>
      { s with conditions :=
          (setConditionList s.conditions ⟨t, CondStatus.cUnknown, "", ""⟩) }

/-- Modelled from the spec: `InitializeConditions` of the condition manager —
populate the aggregate condition and every declared dependent condition with
status Unknown where not yet present, without disturbing already-set
conditions. -/
def initializeConditionsWith (cset : ConditionSet) (s : KafkaSourceStatus) :
    KafkaSourceStatus :=
  cset.dependents.foldl initCondition (initCondition s cset.happy)

/-- The `KafkaConditionReady` (`apis.ConditionReady`). -/
def KafkaConditionReady : String := "Ready"

/-- The `KafkaConditionSinkProvided`. -/
def KafkaConditionSinkProvided : String := "SinkProvided"

/-- The `KafkaConditionDeployed`. -/
def KafkaConditionDeployed : String := "Deployed"

/-- The `KafkaConditionKeyType`. -/
def KafkaConditionKeyType : String := "KeyTypeCorrect"

/-- The `KafkaConditionConnectionEstablished`. -/
def KafkaConditionConnectionEstablished : String := "ConnectionEstablished"

/-- The `KafkaConditionInitialOffsetsCommitted`. -/
def KafkaConditionInitialOffsetsCommitted : String := "InitialOffsetsCommitted"

/-- The `KafkaConditionOIDCIdentityCreated`. -/
def KafkaConditionOIDCIdentityCreated : String := "OIDCIdentityCreated"

/-- The `KafkaSourceCondSet = apis.NewLivingConditionSet(SinkProvided, Deployed,
ConnectionEstablished, InitialOffsetsCommitted, OIDCIdentityCreated)`: the
living condition set with aggregate type Ready and the five dependents in
declaration order. -/
def KafkaSourceCondSet : ConditionSet :=
  { happy := KafkaConditionReady
    dependents :=
      [ KafkaConditionSinkProvided
      , KafkaConditionDeployed
      , KafkaConditionConnectionEstablished
      , KafkaConditionInitialOffsetsCommitted
      , KafkaConditionOIDCIdentityCreated ] }

/-- The `IsReady`: true if the resource is ready overall
(`KafkaSourceCondSet.Manage(s).IsHappy()`). -/
def isReady (s : KafkaSourceStatus) : Bool :=
  isHappy KafkaSourceCondSet s

/-- The `InitializeConditions`: sets relevant unset conditions to Unknown state
(`KafkaSourceCondSet.Manage(s).InitializeConditions()`). -/
def initializeConditions (s : KafkaSourceStatus) : KafkaSourceStatus :=
  initializeConditionsWith KafkaSourceCondSet s

/-- The guard of `MarkSink`: `addr.URL != nil && !addr.URL.IsEmpty()`. -/
def urlPresentNonEmpty (addr : Addressable) : Bool :=
  match addr.url with
  | none => false
  | some u => decide (u ≠ "")

/-- A single quote character, used in the Go format string of
`MarkDeployed`. -/
def quoteChar : String := String.singleton (Char.ofNat 39)

/-- The `MarkSink`: if the address URL is present and non-empty, copy
URL/CACerts/Audience into the status and mark SinkProvided True; otherwise
mark SinkProvided Unknown with reason "SinkEmpty" and message
`Sprintf("Sink has resolved to empty.%s", "")`. -/
def markSink (s : KafkaSourceStatus) (addr : Addressable) : KafkaSourceStatus :=
  if urlPresentNonEmpty addr then
    markCondition KafkaSourceCondSet
      { s with sinkURI := addr.url
               sinkCACerts := addr.caCerts
               sinkAudience := addr.audience }
      KafkaConditionSinkProvided CondStatus.cTrue "" ""
  else
    markCondition KafkaSourceCondSet s KafkaConditionSinkProvided
      CondStatus.cUnknown "SinkEmpty" "Sink has resolved to empty."

/-- The `MarkNoSink`: mark SinkProvided False with the given reason and
(already formatted) message. -/
def markNoSink (s : KafkaSourceStatus) (reason message : String) :
    KafkaSourceStatus :=
  markCondition KafkaSourceCondSet s KafkaConditionSinkProvided
    CondStatus.cFalse reason message

/-- The `DeploymentIsAvailable(d, def)`: scan the deployment conditions for the
first one of type `DeploymentAvailable`; if found return whether its status
is the string "True", else return the caller-supplied default.  This is both
the in-source function (kafka_lifecycle.go lines 110-118) and, per the spec,
the behaviour of the external `duck.DeploymentIsAvailable` that `MarkDeployed`
calls. -/
def DeploymentIsAvailable (d : DeploymentStatus) (dflt : Bool) : Bool :=
  match d.conditions.find? (fun c => decide (c.type = "Available")) with
  | some c => decide (c.status = "True")
  | none => dflt

/-- The `MarkDeployed`: if `duck.DeploymentIsAvailable(&d.Status, false)`, mark
Deployed True and propagate the replica count into `Consumers`; otherwise
mark Deployed False with reason "DeploymentUnavailable" and message
`Sprintf("The Deployment is unavailable.", d.Name)` (name quoted). -/
def markDeployed (s : KafkaSourceStatus) (d : Deployment) : KafkaSourceStatus :=
  if DeploymentIsAvailable d.status false then
    let s1 := markCondition KafkaSourceCondSet s KafkaConditionDeployed
      CondStatus.cTrue "" ""
    { s1 with consumers := d.status.replicas }
  else
    markCondition KafkaSourceCondSet s KafkaConditionDeployed
      CondStatus.cFalse "DeploymentUnavailable"
      ("The Deployment " ++ quoteChar ++ d.name ++ quoteChar ++ " is unavailable.")

/-- The `MarkDeploying`: mark Deployed Unknown with the given reason/message. -/
def markDeploying (s : KafkaSourceStatus) (reason message : String) :
    KafkaSourceStatus :=
  markCondition KafkaSourceCondSet s KafkaConditionDeployed
    CondStatus.cUnknown reason message

/-- The `MarkNotDeployed`: mark Deployed False with the given reason/message. -/
def markNotDeployed (s : KafkaSourceStatus) (reason message : String) :
    KafkaSourceStatus :=
  markCondition KafkaSourceCondSet s KafkaConditionDeployed
    CondStatus.cFalse reason message

/-- The `MarkKeyTypeCorrect`: mark KeyTypeCorrect True. -/
def markKeyTypeCorrect (s : KafkaSourceStatus) : KafkaSourceStatus :=
  markCondition KafkaSourceCondSet s KafkaConditionKeyType
    CondStatus.cTrue "" ""

/-- The `MarkKeyTypeIncorrect`: mark KeyTypeCorrect False. -/
def markKeyTypeIncorrect (s : KafkaSourceStatus) (reason message : String) :
    KafkaSourceStatus :=
  markCondition KafkaSourceCondSet s KafkaConditionKeyType
    CondStatus.cFalse reason message

/-- The `MarkConnectionEstablished`: mark ConnectionEstablished True. -/
def markConnectionEstablished (s : KafkaSourceStatus) : KafkaSourceStatus :=
  markCondition KafkaSourceCondSet s KafkaConditionConnectionEstablished
    CondStatus.cTrue "" ""

/-- The `MarkConnectionNotEstablished`: mark ConnectionEstablished False. -/
def markConnectionNotEstablished (s : KafkaSourceStatus)
    (reason message : String) : KafkaSourceStatus :=
  markCondition KafkaSourceCondSet s KafkaConditionConnectionEstablished
    CondStatus.cFalse reason message

/-- The `MarkInitialOffsetCommitted`: mark InitialOffsetsCommitted True. -/
def markInitialOffsetCommitted (s : KafkaSourceStatus) : KafkaSourceStatus :=
  markCondition KafkaSourceCondSet s KafkaConditionInitialOffsetsCommitted
    CondStatus.cTrue "" ""

/-- The `MarkInitialOffsetNotCommitted`: mark InitialOffsetsCommitted False. -/
def markInitialOffsetNotCommitted (s : KafkaSourceStatus)
    (reason message : String) : KafkaSourceStatus :=
  markCondition KafkaSourceCondSet s KafkaConditionInitialOffsetsCommitted
    CondStatus.cFalse reason message

/-- The `MarkOIDCIdentityCreatedSucceeded`: mark OIDCIdentityCreated True. -/
def markOIDCIdentityCreatedSucceeded (s : KafkaSourceStatus) :
    KafkaSourceStatus :=
  markCondition KafkaSourceCondSet s KafkaConditionOIDCIdentityCreated
    CondStatus.cTrue "" ""

/-- The `MarkOIDCIdentityCreatedSucceededWithReason`: mark OIDCIdentityCreated
True, retaining the given reason/message. -/
def markOIDCIdentityCreatedSucceededWithReason (s : KafkaSourceStatus)
    (reason message : String) : KafkaSourceStatus :=
  markCondition KafkaSourceCondSet s KafkaConditionOIDCIdentityCreated
    CondStatus.cTrue reason message

/-- The `MarkOIDCIdentityCreatedFailed`: mark OIDCIdentityCreated False. -/
def markOIDCIdentityCreatedFailed (s : KafkaSourceStatus)
    (reason message : String) : KafkaSourceStatus :=
  markCondition KafkaSourceCondSet s KafkaConditionOIDCIdentityCreated
    CondStatus.cFalse reason message

/-- The `MarkOIDCIdentityCreatedUnknown`: mark OIDCIdentityCreated Unknown. -/
def markOIDCIdentityCreatedUnknown (s : KafkaSourceStatus)
    (reason message : String) : KafkaSourceStatus :=
  markCondition KafkaSourceCondSet s KafkaConditionOIDCIdentityCreated
    CondStatus.cUnknown reason message

/-- The `UpdateConsumerGroupStatus`: store the status string in `Claims`. -/
def updateConsumerGroupStatus (s : KafkaSourceStatus) (status : String) :
    KafkaSourceStatus :=
  { s with claims := status }

namespace consumergroup

/-- The `Filter(userFacingResource)`: lowercase the kind once, then return a
predicate that is true iff the object is a `*ConsumerGroup` and some owner
reference has a kind whose lowercasing equals it. -/
def Filter (userFacingResource : String) : WatchObj → Bool :=
  let ufr := userFacingResource.toLower
  fun obj =>
    match obj with
    | WatchObj.consumerGroup cg =>
        cg.ownerReferences.any (fun r => decide (r.kind.toLower = ufr))
    | WatchObj.other _ => false

/-- The `Enqueue(userFacingResource, enqueue)`: lowercase the kind once, then,
for a `*ConsumerGroup`, call `enqueue` on
`{Namespace: cg.GetNamespace(), Name: or.Name}` for each matching owner
reference in list order; for any other object do nothing.  The calls made to
`enqueue` are modelled as the list of keys in call order. -/
def Enqueue (userFacingResource : String) : WatchObj → List NamespacedName :=
  let ufr := userFacingResource.toLower
  fun obj =>
    match obj with
    | WatchObj.consumerGroup cg =>
        cg.ownerReferences.foldl
          (fun acc r =>
            if r.kind.toLower = ufr then acc ++ [⟨cg.ns, r.name⟩] else acc)
          []
    | WatchObj.other _ => []

end consumergroup

/-- The `MarkSink` with its pointer argument made explicit: `none` models a nil
`*duckv1.Addressable`, on which the Go body `addr.URL` dereferences a nil
pointer and panics; the panic is modelled as `none`. -/
def markSinkP (s : KafkaSourceStatus) (addr : Option Addressable) :
    Option KafkaSourceStatus :=
  match addr with
  | none => none
  | some a => some (markSink s a)

/-- The `MarkDeployed` with its pointer argument made explicit: `none` models a
nil `*appsv1.Deployment`, on which the Go body `&d.Status` dereferences a nil
pointer and panics; the panic is modelled as `none`. -/
def markDeployedP (s : KafkaSourceStatus) (d : Option Deployment) :
    Option KafkaSourceStatus :=
  match d with
  | none => none
  | some d0 => some (markDeployed s d0)

/-- The status-mutating operations of the lifecycle API, each with its
arguments (formatted messages passed as plain strings). -/
inductive SourceOp where
  | opInitializeConditions
  | opMarkSink (addr : Addressable)
  | opMarkNoSink (reason message : String)
  | opMarkDeployed (d : Deployment)
  | opMarkDeploying (reason message : String)
  | opMarkNotDeployed (reason message : String)
  | opMarkKeyTypeCorrect
  | opMarkKeyTypeIncorrect (reason message : String)
  | opMarkConnectionEstablished
  | opMarkConnectionNotEstablished (reason message : String)
  | opMarkInitialOffsetCommitted
  | opMarkInitialOffsetNotCommitted (reason message : String)
  | opMarkOIDCIdentityCreatedSucceeded
  | opMarkOIDCIdentityCreatedSucceededWithReason (reason message : String)
  | opMarkOIDCIdentityCreatedFailed (reason message : String)
  | opMarkOIDCIdentityCreatedUnknown (reason message : String)
deriving DecidableEq, Repr

/-- Apply an operation to a status. -/
def applyOp : SourceOp → KafkaSourceStatus → KafkaSourceStatus
  | SourceOp.opInitializeConditions, s => initializeConditions s
  | SourceOp.opMarkSink a, s => markSink s a
  | SourceOp.opMarkNoSink r m, s => markNoSink s r m
  | SourceOp.opMarkDeployed d, s => markDeployed s d
  | SourceOp.opMarkDeploying r m, s => markDeploying s r m
  | SourceOp.opMarkNotDeployed r m, s => markNotDeployed s r m
  | SourceOp.opMarkKeyTypeCorrect, s => markKeyTypeCorrect s
  | SourceOp.opMarkKeyTypeIncorrect r m, s => markKeyTypeIncorrect s r m
  | SourceOp.opMarkConnectionEstablished, s => markConnectionEstablished s
  | SourceOp.opMarkConnectionNotEstablished r m, s =>
      markConnectionNotEstablished s r m
  | SourceOp.opMarkInitialOffsetCommitted, s => markInitialOffsetCommitted s
  | SourceOp.opMarkInitialOffsetNotCommitted r m, s =>
      markInitialOffsetNotCommitted s r m
  | SourceOp.opMarkOIDCIdentityCreatedSucceeded, s =>
      markOIDCIdentityCreatedSucceeded s
  | SourceOp.opMarkOIDCIdentityCreatedSucceededWithReason r m, s =>
      markOIDCIdentityCreatedSucceededWithReason s r m
  | SourceOp.opMarkOIDCIdentityCreatedFailed r m, s =>
      markOIDCIdentityCreatedFailed s r m
  | SourceOp.opMarkOIDCIdentityCreatedUnknown r m, s =>
      markOIDCIdentityCreatedUnknown s r m

/-- The mark operations: every operation except `InitializeConditions`. -/
def SourceOp.isMark : SourceOp → Bool
  | SourceOp.opInitializeConditions => false
  | _ => true

/-- The routing keys demanded by the spec for `Enqueue`: one key
`{namespace: subordinate namespace, name: reference name}` per owner
reference whose kind matches case-insensitively, in reference-list order. -/
def enqueueKeysSpec (k : String) (cg : ConsumerGroup) : List NamespacedName :=
  (cg.ownerReferences.filter
      (fun r => decide (r.kind.toLower = k.toLower))).map
    (fun r => ⟨cg.ns, r.name⟩)

/-- The empty fresh status. -/
def emptyStatus : KafkaSourceStatus := ⟨[], none, none, none, 0, ""⟩

/-- A concrete status with SinkProvided Unknown and the remaining present
dependents True, used to exercise the aggregate precedence. -/
def statusSinkUnknown : KafkaSourceStatus :=
  ⟨[ ⟨"SinkProvided", CondStatus.cUnknown, "SinkEmpty", "Sink has resolved to empty."⟩
   , ⟨"Deployed", CondStatus.cTrue, "", ""⟩
   , ⟨"InitialOffsetsCommitted", CondStatus.cTrue, "", ""⟩
   , ⟨"OIDCIdentityCreated", CondStatus.cTrue, "", ""⟩ ],
   none, none, none, 0, ""⟩

/-- A mark operation that makes ConnectionEstablished False. -/
def opConnFalse : SourceOp :=
  SourceOp.opMarkConnectionNotEstablished "DialTimeout" "could not reach broker"

/-! ### Lemmas about condition lookup and update -/

theorem find?_map_replace_ne (cs : List Condition) (c : Condition)
    (t : String) (h : t ≠ c.type) :
    (cs.map (fun x => if x.type = c.type then c else x)).find?
        (fun x => decide (x.type = t))
      = cs.find? (fun x => decide (x.type = t)) := by
  induction cs with
  | nil => rfl
  | cons a as ih =>
      show ((if a.type = c.type then c else a) ::
          as.map (fun x => if x.type = c.type then c else x)).find?
          (fun x => decide (x.type = t)) = _
      by_cases ha : a.type = c.type
      · rw [if_pos ha]
        rw [List.find?_cons_of_neg _ (by simpa using fun hmm => h hmm.symm)]
        rw [List.find?_cons_of_neg _ (by
          simp only [decide_eq_true_eq]
          intro hmm
          exact h (hmm ▸ ha.symm ▸ rfl))]
        exact ih
      · rw [if_neg ha]
        by_cases hat : a.type = t
        · rw [List.find?_cons_of_pos _ (by simpa using hat),
            List.find?_cons_of_pos _ (by simpa using hat)]
        · rw [List.find?_cons_of_neg _ (by simpa using hat),
            List.find?_cons_of_neg _ (by simpa using hat)]
          exact ih

theorem find?_append_singleton_ne (cs : List Condition) (c : Condition)
    (t : String) (h : t ≠ c.type) :
    (cs ++ [c]).find? (fun x => decide (x.type = t))
      = cs.find? (fun x => decide (x.type = t)) := by
  induction cs with
  | nil =>
      show [c].find? (fun x => decide (x.type = t)) = none
      rw [List.find?_cons_of_neg _ (by simpa using fun hmm => h hmm.symm)]
      rfl
  | cons a as ih =>
      show (a :: (as ++ [c])).find? (fun x => decide (x.type = t)) = _
      by_cases hat : a.type = t
      · rw [List.find?_cons_of_pos _ (by simpa using hat),
          List.find?_cons_of_pos _ (by simpa using hat)]
      · rw [List.find?_cons_of_neg _ (by simpa using hat),
          List.find?_cons_of_neg _ (by simpa using hat)]
        exact ih

theorem find?_setConditionList_ne (cs : List Condition) (c : Condition)
    (t : String) (h : t ≠ c.type) :
    (setConditionList cs c).find? (fun x => decide (x.type = t))
      = cs.find? (fun x => decide (x.type = t)) := by
  unfold setConditionList
  by_cases hany : cs.any (fun x => decide (x.type = c.type)) = true
  · rw [if_pos hany]
    exact find?_map_replace_ne cs c t h
  · rw [if_neg hany]
    exact find?_append_singleton_ne cs c t h

theorem find?_map_replace_self (cs : List Condition) (c : Condition)
    (h : cs.any (fun x => decide (x.type = c.type)) = true) :
    (cs.map (fun x => if x.type = c.type then c else x)).find?
      (fun x => decide (x.type = c.type)) = some c := by
  induction cs with
  | nil => simp at h
  | cons a as ih =>
      show ((if a.type = c.type then c else a) ::
          as.map (fun x => if x.type = c.type then c else x)).find?
          (fun x => decide (x.type = c.type)) = some c
      by_cases ha : a.type = c.type
      · rw [if_pos ha]
        rw [List.find?_cons_of_pos _ (by simp)]
      · rw [if_neg ha]
        rw [List.find?_cons_of_neg _ (by simpa using ha)]
        simp only [List.any_cons, Bool.or_eq_true, decide_eq_true_eq] at h
        rcases h with h | h
        · exact absurd h ha
        · exact ih h

theorem find?_setConditionList_self (cs : List Condition) (c : Condition) :
    (setConditionList cs c).find? (fun x => decide (x.type = c.type))
      = some c := by
  unfold setConditionList
  by_cases hany : cs.any (fun x => decide (x.type = c.type)) = true
  · rw [if_pos hany]
    exact find?_map_replace_self cs c hany
  · rw [if_neg hany]
    induction cs with
    | nil =>
        show [c].find? (fun x => decide (x.type = c.type)) = some c
        rw [List.find?_cons_of_pos _ (by simp)]
    | cons a as ih =>
        simp only [List.any_cons, Bool.or_eq_true, decide_eq_true_eq] at hany
        push_neg at hany
        show (a :: (as ++ [c])).find? (fun x => decide (x.type = c.type))
          = some c
        rw [List.find?_cons_of_neg _ (by simpa using hany.1)]
        exact ih (by simpa using hany.2)

theorem findSome?_congr {α β : Type} (f g : α → Option β) (l : List α)
    (h : ∀ x ∈ l, f x = g x) : l.findSome? f = l.findSome? g := by
  induction l with
  | nil => rfl
  | cons a as ih =>
      show (match f a with
            | some b => some b
            | none => as.findSome? f) = (match g a with
            | some b => some b
            | none => as.findSome? g)
      rw [h a (List.mem_cons_self a as)]
      cases g a with
      | some b => rfl
      | none => exact ih (fun x hx => h x (List.mem_cons_of_mem a hx))

theorem findSome?_isSome_of_mem {α β : Type} (f : α → Option β) (l : List α)
    (x : α) (hx : x ∈ l) (hf : (f x).isSome = true) :
    (l.findSome? f).isSome = true := by
  induction l with
  | nil => simp at hx
  | cons a as ih =>
      show (match f a with
            | some b => some b
            | none => as.findSome? f).isSome = true
      cases hfa : f a with
      | some b => rfl
      | none =>
          rcases List.mem_cons.mp hx with rfl | hx'
          · rw [hfa] at hf
            simp at hf
          · exact ih hx'

theorem absentOrUnknownCond_isSome (s : KafkaSourceStatus) (t : String) :
    (absentOrUnknownCond s t).isSome = dependentAbsentOrUnknown s t := by
  unfold absentOrUnknownCond dependentAbsentOrUnknown
  cases getCondition s t with
  | none => rfl
  | some c =>
      by_cases hc : c.status = CondStatus.cUnknown
      · simp [hc]
      · simp [hc]

theorem getCondition_consumers (s : KafkaSourceStatus) (n : Int) (t : String) :
    getCondition { s with consumers := n } t = getCondition s t := rfl

/-- The `recomputeReady` only replaces the aggregate condition: its output
conditions are `setConditionList` of the input with some condition typed
`cset.happy`, and the non-condition fields are untouched. -/
theorem recomputeReady_conditions (cset : ConditionSet)
    (s : KafkaSourceStatus) :
    ∃ c : Condition, c.type = cset.happy
      ∧ recomputeReady cset s
          = { s with conditions := setConditionList s.conditions c } := by
  unfold recomputeReady
  cases firstAbsentOrUnknown cset s with
  | some c => exact ⟨_, rfl, rfl⟩
  | none =>
      cases firstFalse cset s with
      | some c => exact ⟨_, rfl, rfl⟩
      | none => exact ⟨_, rfl, rfl⟩

theorem getCondition_recomputeReady_ne (cset : ConditionSet)
    (s : KafkaSourceStatus) (t : String) (h : t ≠ cset.happy) :
    getCondition (recomputeReady cset s) t = getCondition s t := by
  obtain ⟨c, hc, hrec⟩ := recomputeReady_conditions cset s
  rw [hrec]
  unfold getCondition
  exact find?_setConditionList_ne _ _ _ (hc ▸ h)

theorem firstAbsentOrUnknown_recomputeReady (cset : ConditionSet)
    (s : KafkaSourceStatus) (hnd : cset.happy ∉ cset.dependents) :
    firstAbsentOrUnknown cset (recomputeReady cset s)
      = firstAbsentOrUnknown cset s := by
  unfold firstAbsentOrUnknown
  apply findSome?_congr
  intro t ht
  unfold absentOrUnknownCond
  rw [getCondition_recomputeReady_ne cset s t (fun he => hnd (he ▸ ht))]

/-- The central aggregate-precedence lemma: if, after a recomputation, some
dependent condition is absent or Unknown, then the aggregate condition is
Unknown, carries the reason/message of the first such dependent in
declaration order, and the status is not happy. -/
theorem ready_unknown_of_recompute (cset : ConditionSet)
    (s : KafkaSourceStatus) (hnd : cset.happy ∉ cset.dependents)
    (h : cset.dependents.any
        (fun t => dependentAbsentOrUnknown (recomputeReady cset s) t) = true) :
    ∃ c, firstAbsentOrUnknown cset (recomputeReady cset s) = some c
      ∧ getCondition (recomputeReady cset s) cset.happy
          = some ⟨cset.happy, CondStatus.cUnknown, c.reason, c.message⟩
      ∧ isHappy cset (recomputeReady cset s) = false := by
  obtain ⟨t, ht, haou⟩ := List.any_eq_true.mp h
  have haou_s : dependentAbsentOrUnknown s t = true := by
    rw [← absentOrUnknownCond_isSome] at haou ⊢
    unfold absentOrUnknownCond at haou ⊢
    rw [getCondition_recomputeReady_ne cset s t
      (fun he => hnd (he ▸ ht))] at haou
    exact haou
  have hsome : (firstAbsentOrUnknown cset s).isSome = true := by
    unfold firstAbsentOrUnknown
    exact findSome?_isSome_of_mem _ _ t ht
      (by rw [absentOrUnknownCond_isSome]; exact haou_s)
  obtain ⟨c, hc⟩ := Option.isSome_iff_exists.mp hsome
  have hready : getCondition (recomputeReady cset s) cset.happy
      = some ⟨cset.happy, CondStatus.cUnknown, c.reason, c.message⟩ := by
    unfold recomputeReady
    rw [hc]
    unfold getCondition
    exact find?_setConditionList_self s.conditions
      ⟨cset.happy, CondStatus.cUnknown, c.reason, c.message⟩
  refine ⟨c, ?_, hready, ?_⟩
  · rw [firstAbsentOrUnknown_recomputeReady cset s hnd]
    exact hc
  · unfold isHappy
    rw [hready]
    rfl

theorem getCondition_markCondition (cset : ConditionSet)
    (s : KafkaSourceStatus) (t : String) (st : CondStatus)
    (reason message : String) (ht : t ≠ cset.happy) :
    getCondition (markCondition cset s t st reason message) t
      = some ⟨t, st, reason, message⟩ := by
  unfold markCondition
  rw [getCondition_recomputeReady_ne cset _ t ht]
  unfold getCondition
  exact find?_setConditionList_self s.conditions ⟨t, st, reason, message⟩

theorem markCondition_fields (cset : ConditionSet) (s : KafkaSourceStatus)
    (t : String) (st : CondStatus) (reason message : String) :
    (markCondition cset s t st reason message).sinkURI = s.sinkURI
      ∧ (markCondition cset s t st reason message).sinkCACerts = s.sinkCACerts
      ∧ (markCondition cset s t st reason message).sinkAudience = s.sinkAudience
      ∧ (markCondition cset s t st reason message).consumers = s.consumers := by
  unfold markCondition
  obtain ⟨c, _, hrec⟩ := recomputeReady_conditions cset
    { s with conditions := setConditionList s.conditions ⟨t, st, reason, message⟩ }
  rw [hrec]
  exact ⟨rfl, rfl, rfl, rfl⟩

/-! ### Lemmas about `InitializeConditions` -/

theorem getCondition_initCondition_preserve (s : KafkaSourceStatus)
    (t u : String) (c : Condition) (h : getCondition s u = some c) :
    getCondition (initCondition s t) u = some c := by
  unfold initCondition
  cases h2 : getCondition s t with
  | some _ => exact h
  | none =>
      have hne : u ≠ t := by
        intro he
        rw [he, h2] at h
        exact Option.noConfusion h
      show (setConditionList s.conditions
          ⟨t, CondStatus.cUnknown, "", ""⟩).find?
          (fun x => decide (x.type = u)) = some c
      rw [find?_setConditionList_ne _ _ _ hne]
      exact h

theorem getCondition_initCondition_self (s : KafkaSourceStatus) (t : String) :
    (getCondition (initCondition s t) t).isSome = true := by
  unfold initCondition
  cases h2 : getCondition s t with
  | some c => rw [h2]; rfl
  | none =>
      show ((setConditionList s.conditions
          ⟨t, CondStatus.cUnknown, "", ""⟩).find?
          (fun x => decide (x.type = t))).isSome = true
      rw [find?_setConditionList_self s.conditions
        ⟨t, CondStatus.cUnknown, "", ""⟩]
      rfl

theorem getCondition_foldl_init_preserve (ts : List String)
    (s : KafkaSourceStatus) (u : String) (c : Condition)
    (h : getCondition s u = some c) :
    getCondition (ts.foldl initCondition s) u = some c := by
  induction ts generalizing s with
  | nil => exact h
  | cons t ts ih =>
      exact ih (initCondition s t)
        (getCondition_initCondition_preserve s t u c h)

theorem getCondition_foldl_init_isSome (ts : List String)
    (s : KafkaSourceStatus) (t : String) (ht : t ∈ ts) :
    (getCondition (ts.foldl initCondition s) t).isSome = true := by
  induction ts generalizing s with
  | nil => simp at ht
  | cons a as ih =>
      rcases List.mem_cons.mp ht with rfl | ht'
      · by_cases has : t ∈ as
        · exact ih (initCondition s t) has
        · obtain ⟨c, hc⟩ := Option.isSome_iff_exists.mp
            (getCondition_initCondition_self s t)
          show (getCondition (as.foldl initCondition
            (initCondition s t)) t).isSome = true
          rw [getCondition_foldl_init_preserve as _ t c hc]
          rfl
      · exact ih (initCondition s a) ht'

theorem initCondition_of_isSome (s : KafkaSourceStatus) (t : String)
    (h : (getCondition s t).isSome = true) : initCondition s t = s := by
  unfold initCondition
  cases h2 : getCondition s t with
  | some c => rfl
  | none => rw [h2] at h; simp at h

theorem foldl_init_id (ts : List String) (s : KafkaSourceStatus)
    (h : ∀ t ∈ ts, (getCondition s t).isSome = true) :
    ts.foldl initCondition s = s := by
  induction ts with
  | nil => rfl
  | cons a as ih =>
      show as.foldl initCondition (initCondition s a) = s
      rw [initCondition_of_isSome s a (h a (List.mem_cons_self a as))]
      exact ih (fun t ht => h t (List.mem_cons_of_mem a ht))

/-! ### Helper lemmas for the router and the availability scan -/

theorem foldl_emit_eq_filter_map {α β : Type} (p : α → Bool) (f : α → β)
    (l : List α) (acc : List β) :
    l.foldl (fun acc x => if p x then acc ++ [f x] else acc) acc
      = acc ++ (l.filter p).map f := by
  induction l generalizing acc with
  | nil => simp
  | cons a as ih =>
      show as.foldl (fun acc x => if p x then acc ++ [f x] else acc)
          (if p a then acc ++ [f a] else acc) = _
      cases hpa : p a with
      | true =>
          rw [if_pos rfl, ih (acc ++ [f a])]
          simp [List.filter_cons, hpa]
      | false =>
          rw [if_neg (by simp), ih acc]
          simp [List.filter_cons, hpa]

theorem find?_append_cons_first {α : Type} (p : α → Bool) (pre : List α)
    (c : α) (post : List α) (hc : p c = true)
    (hpre : ∀ x ∈ pre, p x = false) :
    (pre ++ c :: post).find? p = some c := by
  induction pre with
  | nil => exact List.find?_cons_of_pos _ hc
  | cons a as ih =>
      show (a :: (as ++ c :: post)).find? p = some c
      rw [List.find?_cons_of_neg _
        (by rw [hpre a (List.mem_cons_self a as)]; simp)]
      exact ih (fun x hx => hpre x (List.mem_cons_of_mem a hx))

/-! ### Claims -/

/-- C3: `Filter(k)` applied to an object returns true iff the object is a
ConsumerGroup and at least one of its owner references has a kind that is
case-insensitively equal to `k` (both sides lowercased); no ownership-chain
traversal is involved (only the direct reference list is consulted). -/
theorem filter_matches_iff (k : String) (obj : WatchObj) :
    consumergroup.Filter k obj = true
      ↔ ∃ cg, obj = WatchObj.consumerGroup cg
          ∧ ∃ r ∈ cg.ownerReferences, r.kind.toLower = k.toLower := by
  cases obj with
  | consumerGroup cg =>
      show cg.ownerReferences.any
          (fun r => decide (r.kind.toLower = k.toLower)) = true ↔ _
      rw [List.any_eq_true]
      constructor
      · rintro ⟨r, hr, hk⟩
        exact ⟨cg, rfl, r, hr, by simpa using hk⟩
      · rintro ⟨cg', hcg, r, hr, hk⟩
        cases hcg
        exact ⟨r, hr, by simpa using hk⟩
  | other tag =>
      constructor
      · intro h
        exact absurd h (by simp [consumergroup.Filter])
      · rintro ⟨cg, hcg, -⟩
        exact WatchObj.noConfusion hcg

/-- C4: the function returned by `Enqueue(k, enqueue)` calls `enqueue`
exactly once per owner reference whose kind matches `k` case-insensitively,
in reference-list order, with key `{namespace: cg namespace, name: reference
name}`; with zero matches, `enqueue` is never called.  The sequence of calls
is modelled as the returned key list, which equals the spec-side
filter-then-map description. -/
theorem enqueue_keys_per_matching_owner (k : String) (cg : ConsumerGroup) :
    consumergroup.Enqueue k (WatchObj.consumerGroup cg)
      = enqueueKeysSpec k cg := by
  show cg.ownerReferences.foldl
      (fun acc r => if r.kind.toLower = k.toLower
        then acc ++ [(⟨cg.ns, r.name⟩ : NamespacedName)] else acc) []
    = enqueueKeysSpec k cg
  have := foldl_emit_eq_filter_map
    (fun r : OwnerReference => decide (r.kind.toLower = k.toLower))
    (fun r : OwnerReference => (⟨cg.ns, r.name⟩ : NamespacedName))
    cg.ownerReferences []
  simp only [List.nil_append, decide_eq_true_eq] at this
  unfold enqueueKeysSpec
  exact this

/-- C7: for every input object that is not a ConsumerGroup, the `Filter`
predicate returns false and the `Enqueue` function makes zero calls to the
enqueue sink; neither signals an error. -/
theorem non_consumer_group_ignored (k tag : String) :
    consumergroup.Filter k (WatchObj.other tag) = false
      ∧ consumergroup.Enqueue k (WatchObj.other tag) = [] :=
  ⟨rfl, rfl⟩

/-- C6: `DeploymentIsAvailable(d, def)` returns the default exactly when no
condition has type DeploymentAvailable; otherwise it returns whether the
first condition of that type has status equal to the string "True". -/
theorem deploymentIsAvailable_correct (d : DeploymentStatus) (dflt : Bool) :
    ((∀ c ∈ d.conditions, c.type ≠ "Available") →
        DeploymentIsAvailable d dflt = dflt)
  ∧ (∀ pre c post, d.conditions = pre ++ c :: post → c.type = "Available" →
        (∀ x ∈ pre, x.type ≠ "Available") →
        DeploymentIsAvailable d dflt = decide (c.status = "True")) := by
  constructor
  · intro h
    unfold DeploymentIsAvailable
    rw [List.find?_eq_none.mpr (fun x hx => by simpa using h x hx)]
  · intro pre c post hd hc hpre
    unfold DeploymentIsAvailable
    rw [hd, find?_append_cons_first _ pre c post (by simpa using hc)
      (fun x hx => by simpa using hpre x hx)]

/-- C2: `MarkSink` marks SinkProvided True and copies URL/CACerts/Audience
into SinkURI/SinkCACerts/SinkAudience exactly when the address URL is
present (non-nil) and non-empty; otherwise it marks SinkProvided Unknown
(not False) with reason "SinkEmpty".  (Spec-modelled mark primitives.) -/
theorem markSink_correct (s : KafkaSourceStatus) (addr : Addressable) :
    ((∃ u, addr.url = some u ∧ u ≠ "") →
        getCondition (markSink s addr) KafkaConditionSinkProvided
            = some ⟨KafkaConditionSinkProvided, CondStatus.cTrue, "", ""⟩
          ∧ (markSink s addr).sinkURI = addr.url
          ∧ (markSink s addr).sinkCACerts = addr.caCerts
          ∧ (markSink s addr).sinkAudience = addr.audience)
  ∧ ((addr.url = none ∨ addr.url = some "") →
        getCondition (markSink s addr) KafkaConditionSinkProvided
            = some ⟨KafkaConditionSinkProvided, CondStatus.cUnknown,
                "SinkEmpty", "Sink has resolved to empty."⟩) := by
  have hne : KafkaConditionSinkProvided ≠ KafkaSourceCondSet.happy := by decide
  constructor
  · rintro ⟨u, hu, hune⟩
    have hg : urlPresentNonEmpty addr = true := by
      unfold urlPresentNonEmpty
      rw [hu]
      simpa using hune
    unfold markSink
    rw [if_pos hg]
    obtain ⟨h1, h2, h3, h4⟩ := markCondition_fields KafkaSourceCondSet
      { s with sinkURI := addr.url
               sinkCACerts := addr.caCerts
               sinkAudience := addr.audience }
      KafkaConditionSinkProvided CondStatus.cTrue "" ""
    exact ⟨getCondition_markCondition _ _ _ _ _ _ hne, h1, h2, h3⟩
  · intro h
    have hg : urlPresentNonEmpty addr = false := by
      unfold urlPresentNonEmpty
      rcases h with h | h <;> rw [h] <;> simp
    unfold markSink
    rw [if_neg (by simp [hg])]
    exact getCondition_markCondition _ _ _ _ _ _ hne

/-- C10: when the address URL is nil or empty, `MarkSink` leaves the
previously resolved SinkURI/SinkCACerts/SinkAudience untouched (stale data is
not cleared) while the SinkProvided condition becomes Unknown with reason
"SinkEmpty". -/
theorem markSink_empty_preserves_sink_fields (s : KafkaSourceStatus)
    (addr : Addressable) (h : addr.url = none ∨ addr.url = some "") :
    (markSink s addr).sinkURI = s.sinkURI
      ∧ (markSink s addr).sinkCACerts = s.sinkCACerts
      ∧ (markSink s addr).sinkAudience = s.sinkAudience
      ∧ getCondition (markSink s addr) KafkaConditionSinkProvided
          = some ⟨KafkaConditionSinkProvided, CondStatus.cUnknown,
              "SinkEmpty", "Sink has resolved to empty."⟩ := by
  have hg : urlPresentNonEmpty addr = false := by
    unfold urlPresentNonEmpty
    rcases h with h | h <;> rw [h] <;> simp
  unfold markSink
  rw [if_neg (by simp [hg])]
  obtain ⟨h1, h2, h3, h4⟩ := markCondition_fields KafkaSourceCondSet s
    KafkaConditionSinkProvided CondStatus.cUnknown
    "SinkEmpty" "Sink has resolved to empty."
  exact ⟨h1, h2, h3,
    getCondition_markCondition _ _ _ _ _ _ (by decide)⟩

/-- C5: `MarkDeployed(d)`: when the availability predicate (default false)
holds on the deployment status, the Deployed condition becomes True and the
Consumers field receives the replica count; otherwise Deployed becomes False
with reason "DeploymentUnavailable" and a message containing the deployment
name.  (Spec-modelled mark primitives and duck availability predicate.) -/
theorem markDeployed_correct (s : KafkaSourceStatus) (d : Deployment) :
    (DeploymentIsAvailable d.status false = true →
        getCondition (markDeployed s d) KafkaConditionDeployed
            = some ⟨KafkaConditionDeployed, CondStatus.cTrue, "", ""⟩
          ∧ (markDeployed s d).consumers = d.status.replicas)
  ∧ (DeploymentIsAvailable d.status false = false →
        ∃ msg, getCondition (markDeployed s d) KafkaConditionDeployed
              = some ⟨KafkaConditionDeployed, CondStatus.cFalse,
                  "DeploymentUnavailable", msg⟩
            ∧ ∃ a b, msg = a ++ d.name ++ b) := by
  have hne : KafkaConditionDeployed ≠ KafkaSourceCondSet.happy := by decide
  constructor
  · intro hg
    unfold markDeployed
    rw [if_pos hg]
    exact ⟨getCondition_markCondition _ _ _ _ _ _ hne, rfl⟩
  · intro hg
    unfold markDeployed
    rw [if_neg (by simp [hg])]
    refine ⟨_, getCondition_markCondition _ _ _ _ _ _ hne,
      "The Deployment " ++ quoteChar, quoteChar ++ " is unavailable.", ?_⟩
    rw [← String.append_assoc]

theorem isSome_foldl_init (ts : List String) (s : KafkaSourceStatus)
    (t : String) (h : (getCondition s t).isSome = true) :
    (getCondition (ts.foldl initCondition s) t).isSome = true := by
  obtain ⟨c, hc⟩ := Option.isSome_iff_exists.mp h
  rw [getCondition_foldl_init_preserve ts s t c hc]
  rfl

/-- C9: `InitializeConditions` is idempotent — a second call in a row is the
identity — and it never disturbs conditions already present in the status.
(Spec-modelled condition manager.) -/
theorem initializeConditions_idempotent (s : KafkaSourceStatus) :
    initializeConditions (initializeConditions s) = initializeConditions s
      ∧ ∀ t c, getCondition s t = some c →
          getCondition (initializeConditions s) t = some c := by
  constructor
  · show initializeConditionsWith KafkaSourceCondSet (initializeConditions s)
      = initializeConditions s
    unfold initializeConditionsWith
    have hhappy : (getCondition (initializeConditions s)
        KafkaSourceCondSet.happy).isSome = true := by
      unfold initializeConditions initializeConditionsWith
      exact isSome_foldl_init _ _ _
        (getCondition_initCondition_self s KafkaSourceCondSet.happy)
    rw [initCondition_of_isSome _ _ hhappy]
    apply foldl_init_id
    intro t ht
    unfold initializeConditions initializeConditionsWith
    exact getCondition_foldl_init_isSome _ _ t ht
  · intro t c h
    unfold initializeConditions initializeConditionsWith
    exact getCondition_foldl_init_preserve _ _ t c
      (getCondition_initCondition_preserve s _ t c h)

/-- C8 counterexample: the claim that every operation never faults for *any*
argument fails on nil pointers: `MarkSink(nil)` dereferences the nil
addressable in `addr.URL` and panics, and `MarkDeployed(nil)` dereferences
the nil deployment in `&d.Status` and panics (modelled as `none`). -/
theorem markSink_nil_pointer_faults :
    (markSinkP emptyStatus none).isSome = false
      ∧ (markDeployedP emptyStatus none).isSome = false :=
  ⟨rfl, rfl⟩

/-- C8 (amended): every operation of the core is total given well-formed
(non-nil) pointer arguments: `MarkSink` and `MarkDeployed` return a result
for every non-nil argument, and `Filter`/`Enqueue` return a result (false /
no keys) even for objects of unrelated type. -/
theorem operations_total_on_wellformed_inputs (s : KafkaSourceStatus)
    (a : Addressable) (d : Deployment) (k tag : String) :
    (markSinkP s (some a)).isSome = true
      ∧ (markDeployedP s (some d)).isSome = true
      ∧ consumergroup.Filter k (WatchObj.other tag) = false
      ∧ consumergroup.Enqueue k (WatchObj.other tag) = [] :=
  ⟨rfl, rfl, rfl, rfl⟩

theorem ready_unknown_of_markCondition (cset : ConditionSet)
    (s : KafkaSourceStatus) (t : String) (st : CondStatus)
    (reason message : String) (hnd : cset.happy ∉ cset.dependents)
    (h : cset.dependents.any (fun u =>
        dependentAbsentOrUnknown (markCondition cset s t st reason message) u)
      = true) :
    ∃ c, firstAbsentOrUnknown cset (markCondition cset s t st reason message)
          = some c
      ∧ getCondition (markCondition cset s t st reason message) cset.happy
          = some ⟨cset.happy, CondStatus.cUnknown, c.reason, c.message⟩
      ∧ isHappy cset (markCondition cset s t st reason message) = false :=
  ready_unknown_of_recompute cset
    { s with conditions := setConditionList s.conditions ⟨t, st, reason, message⟩ }
    hnd h

theorem recomputeReady_consumers (cset : ConditionSet)
    (x : KafkaSourceStatus) (r : Int) :
    recomputeReady cset { x with consumers := r }
      = { recomputeReady cset x with consumers := r } := by
  have h1 : firstAbsentOrUnknown cset { x with consumers := r }
      = firstAbsentOrUnknown cset x := rfl
  have h2 : firstFalse cset { x with consumers := r }
      = firstFalse cset x := rfl
  unfold recomputeReady
  rw [h1, h2]
  cases firstAbsentOrUnknown cset x with
  | some c => rfl
  | none =>
      cases firstFalse cset x with
      | some c => rfl
      | none => rfl

theorem markCondition_consumers (cset : ConditionSet) (s : KafkaSourceStatus)
    (t : String) (st : CondStatus) (reason message : String) (r : Int) :
    { markCondition cset s t st reason message with consumers := r }
      = markCondition cset { s with consumers := r } t st reason message := by
  unfold markCondition
  rw [← recomputeReady_consumers]

theorem markSink_eq_pos (s : KafkaSourceStatus) (addr : Addressable)
    (hg : urlPresentNonEmpty addr = true) :
    markSink s addr
      = markCondition KafkaSourceCondSet
          { s with sinkURI := addr.url
                   sinkCACerts := addr.caCerts
                   sinkAudience := addr.audience }
          KafkaConditionSinkProvided CondStatus.cTrue "" "" := by
  unfold markSink
  rw [if_pos hg]

theorem markSink_eq_neg (s : KafkaSourceStatus) (addr : Addressable)
    (hg : urlPresentNonEmpty addr = false) :
    markSink s addr
      = markCondition KafkaSourceCondSet s KafkaConditionSinkProvided
          CondStatus.cUnknown "SinkEmpty" "Sink has resolved to empty." := by
  unfold markSink
  rw [hg]
  simp

theorem markDeployed_eq_pos (s : KafkaSourceStatus) (d : Deployment)
    (hg : DeploymentIsAvailable d.status false = true) :
    markDeployed s d
      = markCondition KafkaSourceCondSet
          { s with consumers := d.status.replicas }
          KafkaConditionDeployed CondStatus.cTrue "" "" := by
  unfold markDeployed
  rw [if_pos hg]
  exact markCondition_consumers KafkaSourceCondSet s KafkaConditionDeployed
    CondStatus.cTrue "" "" d.status.replicas

theorem markDeployed_eq_neg (s : KafkaSourceStatus) (d : Deployment)
    (hg : DeploymentIsAvailable d.status false = false) :
    markDeployed s d
      = markCondition KafkaSourceCondSet s KafkaConditionDeployed
          CondStatus.cFalse "DeploymentUnavailable"
          ("The Deployment " ++ quoteChar ++ d.name ++ quoteChar
            ++ " is unavailable.") := by
  unfold markDeployed
  rw [hg]
  simp

/-- C1: after every mark operation, if any of the five dependent conditions
(SinkProvided, Deployed, ConnectionEstablished, InitialOffsetsCommitted,
OIDCIdentityCreated) is absent or Unknown, the aggregate Ready condition is
Unknown (even when other dependents are False), with reason/message copied
from the first such dependent in declaration order, and `IsReady` is false.
(Spec-modelled condition manager.) -/
theorem kafkaSource_aggregate_unknown_precedence (op : SourceOp)
    (s : KafkaSourceStatus) (hop : op.isMark = true)
    (h : KafkaSourceCondSet.dependents.any
        (fun t => dependentAbsentOrUnknown (applyOp op s) t) = true) :
    ∃ c, firstAbsentOrUnknown KafkaSourceCondSet (applyOp op s) = some c
      ∧ getCondition (applyOp op s) KafkaConditionReady
          = some ⟨KafkaConditionReady, CondStatus.cUnknown, c.reason, c.message⟩
      ∧ isReady (applyOp op s) = false := by
  have hnd : KafkaSourceCondSet.happy ∉ KafkaSourceCondSet.dependents := by
    decide
  cases op with
  | opInitializeConditions => simp [SourceOp.isMark] at hop
  | opMarkSink addr =>
      simp only [applyOp] at h ⊢
      cases hg : urlPresentNonEmpty addr with
      | true =>
          rw [markSink_eq_pos s addr hg] at h ⊢
          exact ready_unknown_of_markCondition _ _ _ _ _ _ hnd h
      | false =>
          rw [markSink_eq_neg s addr hg] at h ⊢
          exact ready_unknown_of_markCondition _ _ _ _ _ _ hnd h
  | opMarkNoSink r m =>
      exact ready_unknown_of_markCondition _ _ _ _ _ _ hnd h
  | opMarkDeployed d =>
      simp only [applyOp] at h ⊢
      cases hg : DeploymentIsAvailable d.status false with
      | true =>
          rw [markDeployed_eq_pos s d hg] at h ⊢
          exact ready_unknown_of_markCondition _ _ _ _ _ _ hnd h
      | false =>
          rw [markDeployed_eq_neg s d hg] at h ⊢
          exact ready_unknown_of_markCondition _ _ _ _ _ _ hnd h
  | opMarkDeploying r m =>
      exact ready_unknown_of_markCondition _ _ _ _ _ _ hnd h
  | opMarkNotDeployed r m =>
      exact ready_unknown_of_markCondition _ _ _ _ _ _ hnd h
  | opMarkKeyTypeCorrect =>
      exact ready_unknown_of_markCondition _ _ _ _ _ _ hnd h
  | opMarkKeyTypeIncorrect r m =>
      exact ready_unknown_of_markCondition _ _ _ _ _ _ hnd h
  | opMarkConnectionEstablished =>
      exact ready_unknown_of_markCondition _ _ _ _ _ _ hnd h
  | opMarkConnectionNotEstablished r m =>
      exact ready_unknown_of_markCondition _ _ _ _ _ _ hnd h
  | opMarkInitialOffsetCommitted =>
      exact ready_unknown_of_markCondition _ _ _ _ _ _ hnd h
  | opMarkInitialOffsetNotCommitted r m =>
      exact ready_unknown_of_markCondition _ _ _ _ _ _ hnd h
  | opMarkOIDCIdentityCreatedSucceeded =>
      exact ready_unknown_of_markCondition _ _ _ _ _ _ hnd h
  | opMarkOIDCIdentityCreatedSucceededWithReason r m =>
      exact ready_unknown_of_markCondition _ _ _ _ _ _ hnd h
  | opMarkOIDCIdentityCreatedFailed r m =>
      exact ready_unknown_of_markCondition _ _ _ _ _ _ hnd h
  | opMarkOIDCIdentityCreatedUnknown r m =>
      exact ready_unknown_of_markCondition _ _ _ _ _ _ hnd h

theorem kafkaSource_aggregate_unknown_precedence_witness :
    SourceOp.isMark opConnFalse = true
      ∧ KafkaSourceCondSet.dependents.any
          (fun t => dependentAbsentOrUnknown (applyOp opConnFalse statusSinkUnknown) t)
        = true
      ∧ ∃ c, firstAbsentOrUnknown KafkaSourceCondSet
              (applyOp opConnFalse statusSinkUnknown) = some c
          ∧ getCondition (applyOp opConnFalse statusSinkUnknown)
              KafkaConditionReady
              = some ⟨KafkaConditionReady, CondStatus.cUnknown,
                  c.reason, c.message⟩
          ∧ isReady (applyOp opConnFalse statusSinkUnknown) = false :=
  ⟨by decide, by decide,
    kafkaSource_aggregate_unknown_precedence opConnFalse statusSinkUnknown
      (by decide) (by decide)⟩

theorem markSink_correct_witness :
    getCondition (markSink emptyStatus
        ⟨some "http://example.com", some "certs", some "aud"⟩)
        KafkaConditionSinkProvided
      = some ⟨KafkaConditionSinkProvided, CondStatus.cTrue, "", ""⟩
      ∧ (markSink emptyStatus
          ⟨some "http://example.com", some "certs", some "aud"⟩).sinkURI
        = some "http://example.com"
      ∧ getCondition (markSink emptyStatus ⟨some "", none, none⟩)
          KafkaConditionSinkProvided
        = some ⟨KafkaConditionSinkProvided, CondStatus.cUnknown,
            "SinkEmpty", "Sink has resolved to empty."⟩ :=
  ⟨((markSink_correct emptyStatus
      ⟨some "http://example.com", some "certs", some "aud"⟩).1
      ⟨"http://example.com", rfl, by decide⟩).1,
   ((markSink_correct emptyStatus
      ⟨some "http://example.com", some "certs", some "aud"⟩).1
      ⟨"http://example.com", rfl, by decide⟩).2.1,
   (markSink_correct emptyStatus ⟨some "", none, none⟩).2 (Or.inr rfl)⟩

theorem markDeployed_correct_witness :
    getCondition (markDeployed emptyStatus
        ⟨"adapter", ⟨[⟨"Available", "True"⟩], 7⟩⟩) KafkaConditionDeployed
      = some ⟨KafkaConditionDeployed, CondStatus.cTrue, "", ""⟩
      ∧ (markDeployed emptyStatus
          ⟨"adapter", ⟨[⟨"Available", "True"⟩], 7⟩⟩).consumers = 7
      ∧ ∃ msg, getCondition (markDeployed emptyStatus
            ⟨"adapter", ⟨[], 0⟩⟩) KafkaConditionDeployed
          = some ⟨KafkaConditionDeployed, CondStatus.cFalse,
              "DeploymentUnavailable", msg⟩
        ∧ ∃ a b, msg = a ++ "adapter" ++ b :=
  ⟨((markDeployed_correct emptyStatus
      ⟨"adapter", ⟨[⟨"Available", "True"⟩], 7⟩⟩).1 (by decide)).1,
   ((markDeployed_correct emptyStatus
      ⟨"adapter", ⟨[⟨"Available", "True"⟩], 7⟩⟩).1 (by decide)).2,
   (markDeployed_correct emptyStatus ⟨"adapter", ⟨[], 0⟩⟩).2 (by decide)⟩

theorem deploymentIsAvailable_correct_witness :
    DeploymentIsAvailable
        ⟨[⟨"Progressing", "True"⟩, ⟨"Available", "False"⟩], 3⟩ true = false
      ∧ DeploymentIsAvailable ⟨[⟨"Progressing", "True"⟩], 0⟩ true = true := by
  constructor
  · have := (deploymentIsAvailable_correct
        ⟨[⟨"Progressing", "True"⟩, ⟨"Available", "False"⟩], 3⟩ true).2
      [⟨"Progressing", "True"⟩] ⟨"Available", "False"⟩ [] rfl rfl (by decide)
    rw [this]
    decide
  · exact (deploymentIsAvailable_correct
      ⟨[⟨"Progressing", "True"⟩], 0⟩ true).1 (by decide)

theorem initializeConditions_idempotent_witness :
    initializeConditions (initializeConditions
        ⟨[⟨"SinkProvided", CondStatus.cTrue, "", ""⟩], none, none, none, 0, ""⟩)
      = initializeConditions
        ⟨[⟨"SinkProvided", CondStatus.cTrue, "", ""⟩], none, none, none, 0, ""⟩
      ∧ getCondition (initializeConditions
          ⟨[⟨"SinkProvided", CondStatus.cTrue, "", ""⟩], none, none, none, 0, ""⟩)
          "SinkProvided"
        = some ⟨"SinkProvided", CondStatus.cTrue, "", ""⟩ :=
  ⟨(initializeConditions_idempotent
      ⟨[⟨"SinkProvided", CondStatus.cTrue, "", ""⟩], none, none, none, 0, ""⟩).1,
   (initializeConditions_idempotent
      ⟨[⟨"SinkProvided", CondStatus.cTrue, "", ""⟩], none, none, none, 0, ""⟩).2
     "SinkProvided" ⟨"SinkProvided", CondStatus.cTrue, "", ""⟩ (by decide)⟩

theorem markSink_empty_preserves_sink_fields_witness :
    (markSink ⟨[], some "http://old", some "oldca", some "oldaud", 0, ""⟩
        ⟨none, none, none⟩).sinkURI = some "http://old"
      ∧ (markSink ⟨[], some "http://old", some "oldca", some "oldaud", 0, ""⟩
          ⟨none, none, none⟩).sinkCACerts = some "oldca"
      ∧ (markSink ⟨[], some "http://old", some "oldca", some "oldaud", 0, ""⟩
          ⟨none, none, none⟩).sinkAudience = some "oldaud"
      ∧ getCondition (markSink
          ⟨[], some "http://old", some "oldca", some "oldaud", 0, ""⟩
          ⟨none, none, none⟩) KafkaConditionSinkProvided
        = some ⟨KafkaConditionSinkProvided, CondStatus.cUnknown,
            "SinkEmpty", "Sink has resolved to empty."⟩ :=
  markSink_empty_preserves_sink_fields
    ⟨[], some "http://old", some "oldca", some "oldaud", 0, ""⟩
    ⟨none, none, none⟩ (Or.inl rfl)
